import Mathlib

/-!
Verification of the `unified-auth-fetch` request pipeline.

Shallow embedding of the TypeScript sources:
- `src/utils/fetchHelpers.ts` (`buildUrl`, `mergeHeaders`, `parseResponse`),
- `src/utils/shapers.ts` (`createStandardShaper`),
- `src/errors/handleError.ts` (`handleError`),
- `src/redirects/handleRedirect.ts` (`handleRedirect`),
- `src/createClient.ts` (`createFetchClient` / `execute`).

Modelling conventions:
- JavaScript values that flow through the pipeline (request bodies, parsed
  response bodies, override results, schema outputs) are modelled by the
  inductive `Value`; JS `undefined` in an optional position is `Option.none`.
- `Headers` objects are association lists with lower-cased keys, maintained
  by `headersSet` (mirroring `Headers.prototype.set`); `Headers.get` is
  `headersGet`.  `Headers.forEach` iteration order does not affect the final
  map built by `mergeHeaders`, so list order is the insertion order here.
- The WHATWG `URL` constructor is modelled for the inputs this library feeds
  it: a path free of query/fragment/dot-segments resolved against a base
  ending in `/` concatenates, and `searchParams.set` followed by `toString`
  renders `?k=v&...` (percent-encoding elided for reserved-character-free
  values, which is all the pipeline's tests exercise).
- Hook callbacks whose return value the source ignores
  (`onRedirect`, `onRedirectSideEffect`, `serverRedirectHandler`,
  `handleClientError`, `handleServerError`) are modelled by presence flags;
  each invocation is recorded as an `Event` so that "the hook was invoked"
  is a statement about the event trace.
- `async`/`await` sequencing is pure sequential composition; a JS `throw` is
  `Except.error`.
- The execution environment (`isServer()`, i.e. `typeof window`) is an
  explicit boolean input, and the transport (`fetch`) is an explicit function
  from the dispatched arguments to a `Response`.
-/

namespace UnifiedFetch

/-- A JavaScript value as it flows through the pipeline (bodies, parsed
responses, override results).  `undefined` is represented by `Option.none`
at optional positions, never by a `Value` constructor. -/
inductive Value where
  | null : Value
  | bool (b : Bool) : Value
  | num (n : Int) : Value
  | str (s : String) : Value
  | obj (fields : List (String × Value)) : Value

/-- JS truthiness of a `Value` (`body ? ... : ...` in the source). -/
def truthy : Value → Bool
  | .null => false
  | .bool b => b
  | .num n => n != 0
  | .str s => s != ""
  | .obj _ => true

/-- Truthiness of an optional body (`undefined` is falsy). -/
def truthyOpt : Option Value → Bool
  | none => false
  | some v => truthy v

mutual

/-- Model of `JSON.stringify` on a `Value` (string escaping elided). -/
def jsonStringify : Value → String
  | .null => "null"
  | .bool b => if b then "true" else "false"
  | .num n => toString n
  | .str s => "\"" ++ s ++ "\""
  | .obj fields => "\x7b" ++ jsonStringifyFields fields ++ "\x7d"

/-- Model of `JSON.stringify` of the comma-separated field list of an object. -/
def jsonStringifyFields : List (String × Value) → String
  | [] => ""
  | (k, v) :: rest =>
    "\"" ++ k ++ "\":" ++ jsonStringify v ++
      (if rest.isEmpty then "" else "," ++ jsonStringifyFields rest)

end

/-- A query-parameter value
(`string | number | boolean | null | undefined` in `RequestOptions.params`). -/
inductive ParamValue where
  | str (s : String) : ParamValue
  | num (n : Int) : ParamValue
  | bool (b : Bool) : ParamValue
  | null : ParamValue
  | undef : ParamValue

/-- The JS loose test `v != null`, true exactly for `null` and `undefined`. -/
def ParamValue.isNullish : ParamValue → Bool
  | .null => true
  | .undef => true
  | _ => false

/-- JS `String(v)` on a param value. -/
def ParamValue.render : ParamValue → String
  | .str s => s
  | .num n => toString n
  | .bool b => if b then "true" else "false"
  | .null => "null"
  | .undef => "undefined"

/-- Character-list implementations of the string primitives the pipeline
uses, kept kernel-reducible so concrete runs evaluate by `decide`/`rfl`. -/
def strLower (s : String) : String :=
  ⟨s.data.map Char.toLower⟩

/-- Model of `String.prototype.startsWith` / the regex anchor `^`. -/
def strStartsWith (s pre : String) : Bool :=
  pre.data.isPrefixOf s.data

/-- Model of `String.prototype.endsWith`. -/
def strEndsWith (s post : String) : Bool :=
  post.data.reverse.isPrefixOf s.data.reverse

/-- Drop the first `n` characters (`String.prototype.slice(n)`). -/
def strDrop (s : String) (n : Nat) : String :=
  ⟨s.data.drop n⟩

/-- Join with a separator (backs `Array.prototype.join`). -/
def joinSep (sep : String) : List String → String
  | [] => ""
  | [x] => x
  | x :: rest => x ++ sep ++ joinSep sep rest

/-- Does `sub` occur as a contiguous sublist of `l`?
(Backs `String.includes`.) -/
def charsHaveSub (sub : List Char) : List Char → Bool
  | [] => sub.isEmpty
  | c :: rest => sub.isPrefixOf (c :: rest) || charsHaveSub sub rest

/-- JS `String.prototype.includes`. -/
def strHasSub (s sub : String) : Bool :=
  charsHaveSub sub.data s.data

/-- Model of `Headers.prototype.get`: name is matched case-insensitively (keys are
stored lower-cased). -/
def headersGet (hs : List (String × String)) (name : String) : Option String :=
  (hs.find? (fun p => p.1 == strLower name)).map (·.2)

/-- Model of `Headers.prototype.set`: lower-cases the name, replaces an existing
entry in place or appends. -/
def headersSet (hs : List (String × String)) (name value : String) :
    List (String × String) :=
  let k := strLower name
  if hs.any (fun p => p.1 == k) then
    hs.map (fun p => if p.1 == k then (k, value) else p)
  else
    hs ++ [(k, value)]

/-- Model of `mergeHeaders(...inputs)` from `fetchHelpers.ts`: fold every defined
input into a fresh `Headers` via `set`, later inputs overriding earlier
ones. -/
def mergeHeaders (inputs : List (Option (List (String × String)))) :
    List (String × String) :=
  inputs.foldl
    (fun h input =>
      match input with
      | none => h
      | some l => l.foldl (fun h p => headersSet h p.1 p.2) h)
    []

/-- Model of `URLSearchParams.prototype.set`: replace an existing key or append. -/
def setQueryParam (q : List (String × String)) (k v : String) :
    List (String × String) :=
  if q.any (fun p => p.1 == k) then
    q.map (fun p => if p.1 == k then (k, v) else p)
  else
    q ++ [(k, v)]

/-- The `for (const [k, v] of Object.entries(params))` loop of `buildUrl`:
skip nullish values, `searchParams.set(k, String(v))` otherwise. -/
def applyParams (q : List (String × String)) :
    List (String × ParamValue) → List (String × String)
  | [] => q
  | (k, v) :: rest =>
    applyParams (if v.isNullish then q else setQueryParam q k v.render) rest

/-- Render accumulated search params as `url.toString()` does:
empty → no query string, otherwise `?k=v&…`. -/
def renderQuery (q : List (String × String)) : String :=
  if q.isEmpty then ""
  else "?" ++ joinSep "&" (q.map (fun p => p.1 ++ "=" ++ p.2))

/-- The regex test `/^https?:\/\//i.test(path)` of `buildUrl`. -/
def isHttpAbsolute (path : String) : Bool :=
  strStartsWith (strLower path) "http://" || strStartsWith (strLower path) "https://"

/-- Model of `baseUrl.endsWith("/") ? baseUrl : baseUrl + "/"`. -/
def ensureTrailingSlash (b : String) : String :=
  if strEndsWith b "/" then b else b ++ "/"

/-- JS truthiness of the optional `baseUrl` string: `!baseUrl` is true both
for `undefined` and for the empty string. -/
def optStrTruthy : Option String → Bool
  | none => false
  | some s => s != ""

/-- Model of `buildUrl(baseUrl, path, params)` from `fetchHelpers.ts`.  A thrown
`Error` is `Except.error` with the error's message.  The guard
`if (!isAbsolute && !baseUrl) throw` tests `baseUrl` with JS truthiness, so
a missing and an empty base URL both raise. -/
def buildUrl (baseUrl : Option String) (path : String)
    (params : Option (List (String × ParamValue))) : Except String String :=
  let isAbsolute := isHttpAbsolute path
  if !isAbsolute && !optStrTruthy baseUrl then
    .error ("Relative path \"" ++ path ++ "\" requires a baseUrl")
  else
    let normalizedPath :=
      if !isAbsolute && strStartsWith path "/" then strDrop path 1 else path
    let base :=
      if isAbsolute then path
      else ensureTrailingSlash (baseUrl.getD "") ++ normalizedPath
    let q := match params with
      | none => []
      | some ps => applyParams [] ps
    .ok (base ++ renderQuery q)

/-- The two results of reading a `Response` body: `res.json()` succeeds with
a value or throws (`asJson = none`), `res.text()` succeeds with a string or
throws (`asText = none`). -/
structure ResBody where
  asJson : Option Value
  asText : Option String

/-- A transport `Response`: status, status text, headers (lower-cased keys)
and the body read results. -/
structure Response where
  status : Nat
  statusText : String
  headers : List (String × String)
  body : ResBody

/-- Model of `Response.ok`: status in the range 200–299. -/
def resOk (res : Response) : Bool :=
  200 ≤ res.status && res.status < 300

/-- Model of `parseResponse(res)` from `fetchHelpers.ts`: JSON attempted when the
content type contains "json", otherwise text; either failure yields
`null`. -/
def parseResponse (res : Response) : Value :=
  let ct := (headersGet res.headers "content-type").getD ""
  if strHasSub ct "json" then
    match res.body.asJson with
    | some v => v
    | none => Value.null
  else
    match res.body.asText with
    | some s => Value.str s
    | none => Value.null

/-- Model of `RequestContext` (from `types.ts`): the immutable per-call record built
before dispatch.  The `request` field (`new Request(url)`) is modelled by
the request's URL. -/
structure RequestContext where
  isServer : Bool
  url : String
  method : String
  headers : List (String × String)
  request : String

/-- Model of `ErrorContext` (from `errors.types.ts`), built by `handleError`. -/
structure ErrorContext where
  status : Nat
  statusText : String
  message : String
  parsedBody : Value
  raw : Response
  url : String
  method : String

/-- Model of `RedirectContext` (from `redirects.types.ts`), built by
`handleRedirect`. -/
structure RedirectContext where
  location : String
  status : Nat
  ctx : RequestContext

/-- The `StandardSuccess` shape of `types.ts` and the output type of a
shaper's `success` operation. -/
structure StandardSuccess where
  ok : Bool
  status : Nat
  data : Value
  headers : List (String × String)
  raw : Response

/-- The `StandardError` shape of `types.ts`: the output type of a shaper's
`error` operation.  (TypeScript fixes `ok` to the literal `false`; here it
is a field so that the theorems can state `ok = false`.) -/
structure StandardError where
  ok : Bool
  status : Nat
  message : String
  data : Option Value
  raw : Response

/-- The `StandardRedirect` shape of `types.ts`. -/
structure StandardRedirect where
  ok : Bool
  redirected : Bool
  status : Nat
  location : String

/-- A raised JS exception: either a plain `new Error(msg)` (URL building,
redirect termination contract, schema `parse` throws) or the
`Object.assign(new Error(shaped.message), shaped)` raised by `handleError`
in throwing mode, which carries every shaped-error field. -/
inductive Err where
  | err (msg : String) : Err
  | httpErr (shaped : StandardError) : Err

/-- The value a call resolves with: the raw payload (throwing-mode success
or an override result), a shaped success, or a shaped error. -/
inductive ExecValue where
  | raw (v : Value) : ExecValue
  | shapedSuccess (s : StandardSuccess) : ExecValue
  | shapedError (e : StandardError) : ExecValue

/-- Model of `ResponseShaper` (from `types.ts`): required `success` and `error`
operations and an optional `redirect` operation. -/
structure ResponseShaper where
  success : Value → Response → StandardSuccess
  error : ErrorContext → StandardError
  redirect : Option (RedirectContext → StandardRedirect)

/-- Model of `createStandardShaper()` from `shapers.ts`.  Note: the source object
literal has only `success` and `error` properties, so the optional
`redirect` capability is absent. -/
def createStandardShaper : ResponseShaper where
  success := fun data response =>
    { ok := true
      status := response.status
      data := data
      headers := response.headers
      raw := response }
  error := fun ctx =>
    { ok := false
      status := ctx.status
      message := ctx.message
      data := some ctx.parsedBody
      raw := ctx.raw }
  redirect := none

/-- Model of `RedirectConfig` (from `redirects.types.ts`): the two hooks, modelled
by presence (their bodies return `void`). -/
structure RedirectConfig where
  onRedirectSideEffect : Bool
  serverRedirectHandler : Bool

/-- Model of `ErrorConfig` (from `errors.types.ts`): the two global error hooks,
modelled by presence (their return values are awaited and discarded). -/
structure ErrorConfig where
  handleClientError : Bool
  handleServerError : Bool

/-- Model of `RequestCredentials` values. -/
inductive Credentials where
  | includeMode : Credentials
  | sameOriginMode : Credentials
  | omitMode : Credentials

/-- Model of `ClientAuthConfig` (from `types.ts`). -/
structure ClientAuthConfig where
  enabled : Option Bool
  credentials : Option Credentials

/-- Model of `ServerAuthConfig` (from `types.ts`): the cookie-derivation hook,
modelled by presence.  `execute` never reads this config. -/
structure ServerAuthConfig where
  enabled : Option Bool
  cookies : Bool

/-- Model of `AuthConfig` (from `types.ts`). -/
structure AuthConfig where
  client : Option ClientAuthConfig
  server : Option ServerAuthConfig

/-- Model of `FetchClientConfig` (from `types.ts`), as consumed by
`createFetchClient`.  The `cookies` store is omitted: `execute` never
reads it. -/
structure FetchClientConfig where
  baseUrl : Option String
  headers : Option (List (String × String))
  redirects : Option RedirectConfig
  auth : Option AuthConfig
  errors : Option ErrorConfig
  responseFormat : Option ResponseShaper

/-- Model of `RequestOptions` (from `types.ts`) together with the per-call `method`.
`onError` returns `none` for JS `undefined`; `onRedirect` is modelled by
presence; `schema.parse` may throw. -/
structure RequestOptions where
  method : String
  body : Option Value
  params : Option (List (String × ParamValue))
  headers : Option (List (String × String))
  onError : Option (StandardError → Option Value)
  onRedirect : Bool
  schema : Option (Value → Except Err Value)
  disableAuth : Bool

/-- Model of `config.responseFormat ?? createStandardShaper()` in
`createFetchClient`. -/
def createFetchClientShaper (cfg : FetchClientConfig) : ResponseShaper :=
  cfg.responseFormat.getD createStandardShaper

/-- Whether `redirects?.serverRedirectHandler` is configured. -/
def cfgHasServerRedirectHandler (cfg : FetchClientConfig) : Bool :=
  match cfg.redirects with
  | none => false
  | some r => r.serverRedirectHandler

/-- Whether `redirects?.onRedirectSideEffect` is configured. -/
def cfgHasRedirectSideEffect (cfg : FetchClientConfig) : Bool :=
  match cfg.redirects with
  | none => false
  | some r => r.onRedirectSideEffect

/-- Model of `auth?.client?.credentials` (optional chaining). -/
def authClientCredentials : Option AuthConfig → Option Credentials
  | none => none
  | some a =>
    match a.client with
    | none => none
    | some c => c.credentials

/-- Whether `handlers?.handleServerError` is configured. -/
def errCfgHasServer : Option ErrorConfig → Bool
  | none => false
  | some h => h.handleServerError

/-- Whether `handlers?.handleClientError` is configured. -/
def errCfgHasClient : Option ErrorConfig → Bool
  | none => false
  | some h => h.handleClientError

/-- The `redirect: RequestRedirect` argument of the transport dispatch. -/
inductive RedirectMode where
  | manual : RedirectMode
  | follow : RedirectMode

/-- The arguments of the `fetch(url, {...})` dispatch in `execute`
(pass-through `...rest` transport options elided). -/
structure FetchArgs where
  url : String
  method : String
  headers : List (String × String)
  body : Option String
  redirect : RedirectMode
  credentials : Option Credentials

/-- An observable side effect of one call: the transport dispatch and each
hook invocation, in program order. -/
inductive Event where
  | fetchCall (args : FetchArgs) : Event
  | requestRedirectHook (rctx : RedirectContext) : Event
  | globalRedirectHook (rctx : RedirectContext) : Event
  | serverRedirectCall (rctx : RedirectContext) : Event
  | serverErrorHook (e : StandardError) : Event
  | clientErrorHook (e : StandardError) : Event
  | overrideCall (e : StandardError) : Event

/-- The `ErrorContext` literal built at the top of `handleError`. -/
def mkErrorContext (res : Response) (parsed : Value) (ctx : RequestContext) :
    ErrorContext where
  status := res.status
  statusText := res.statusText
  message := "HTTP " ++ toString res.status ++ ": " ++ res.statusText
  parsedBody := parsed
  raw := res
  url := ctx.url
  method := ctx.method

/-- Model of `handleError` from `errors/handleError.ts`: build the error context,
shape it, fire exactly one global hook by environment, apply the per-call
override, then return the shaped error (safe mode) or raise it (throwing
mode).  The second component is the trace of hook invocations. -/
def handleError (res : Response) (parsed : Value) (safe : Bool)
    (ctx : RequestContext) (shaper : ResponseShaper)
    (handlers : Option ErrorConfig)
    (onError : Option (StandardError → Option Value)) :
    Except Err ExecValue × List Event :=
  let errorCtx := mkErrorContext res parsed ctx
  let shaped := shaper.error errorCtx
  let hookEvs :=
    if ctx.isServer then
      if errCfgHasServer handlers then [Event.serverErrorHook shaped] else []
    else
      if errCfgHasClient handlers then [Event.clientErrorHook shaped] else []
  match onError with
  | some f =>
    let evs := hookEvs ++ [Event.overrideCall shaped]
    match f shaped with
    | some v => (.ok (.raw v), evs)
    | none =>
      if safe then (.ok (.shapedError shaped), evs)
      else (.error (.httpErr shaped), evs)
  | none =>
    if safe then (.ok (.shapedError shaped), hookEvs)
    else (.error (.httpErr shaped), hookEvs)

/-- Model of `handleRedirect` from `redirects/handleRedirect.ts`: ignore non-3xx
statuses and absent/empty `location` headers (`if (!location)`); otherwise
fire the per-call observer then the global observational hook; if running
server-side with an authoritative handler configured, invoke it and raise
the termination-contract violation.  The second component is the trace of
hook invocations. -/
def handleRedirect (res : Response) (ctx : RequestContext)
    (redirects : Option RedirectConfig) (onRedirect : Bool) :
    Except Err Unit × List Event :=
  if res.status < 300 || 400 ≤ res.status then (.ok (), [])
  else
    match headersGet res.headers "location" with
    | none => (.ok (), [])
    | some location =>
      if location == "" then (.ok (), [])
      else
        let rctx : RedirectContext :=
          { location := location, status := res.status, ctx := ctx }
        let evs :=
          (if onRedirect then [Event.requestRedirectHook rctx] else []) ++
          (if (match redirects with
               | none => false
               | some r => r.onRedirectSideEffect) then
            [Event.globalRedirectHook rctx]
          else [])
        if ctx.isServer &&
            (match redirects with
             | none => false
             | some r => r.serverRedirectHandler) then
          (.error (.err ("serverRedirectHandler did not terminate for redirect to "
              ++ location)),
           evs ++ [Event.serverRedirectCall rctx])
        else
          (.ok (), evs)

/-- The header merge of `execute`: merge global and per-call headers, then
default `content-type: application/json` when a truthy body is present and
neither source supplied a content type. -/
def mergedHeadersFor (cfg : FetchClientConfig) (opts : RequestOptions) :
    List (String × String) :=
  let merged := mergeHeaders [cfg.headers, opts.headers]
  if truthyOpt opts.body && !(headersGet merged "content-type").isSome then
    headersSet merged "content-type" "application/json"
  else merged

/-- The redirect-mode computation of `execute`:
`isServer() && redirects?.serverRedirectHandler ? "manual" : "follow"`. -/
def redirectModeFor (isServer : Bool) (cfg : FetchClientConfig) :
    RedirectMode :=
  if isServer && cfgHasServerRedirectHandler cfg then .manual else .follow

/-- The credentials computation of `execute`:
`!isServer() && !disableAuth ? auth?.client?.credentials : undefined`. -/
def credentialsFor (isServer : Bool) (cfg : FetchClientConfig)
    (opts : RequestOptions) : Option Credentials :=
  if !isServer && !opts.disableAuth then authClientCredentials cfg.auth
  else none

/-- The body serialization of `execute`:
`body ? JSON.stringify(body) : undefined`. -/
def serializedBody (opts : RequestOptions) : Option String :=
  match opts.body with
  | some b => if truthy b then some (jsonStringify b) else none
  | none => none

/-- The `RequestContext` literal built by `execute`. -/
def mkRequestContext (isServer : Bool) (url : String)
    (opts : RequestOptions) (cfg : FetchClientConfig) : RequestContext where
  isServer := isServer
  url := url
  method := opts.method
  headers := mergedHeadersFor cfg opts
  request := url

/-- The argument record of the `fetch(url, {...})` dispatch in `execute`. -/
def fetchArgsFor (isServer : Bool) (cfg : FetchClientConfig) (url : String)
    (opts : RequestOptions) : FetchArgs where
  url := url
  method := opts.method
  headers := mergedHeadersFor cfg opts
  body := serializedBody opts
  redirect := redirectModeFor isServer cfg
  credentials := credentialsFor isServer cfg opts

/-- The outcome of one call: the resolved/raised result and the trace of
observable side effects in program order. -/
structure ExecOutcome where
  result : Except Err ExecValue
  events : List Event

/-- The core `execute` of `createClient.ts`, with the execution environment
and the transport as explicit inputs.  One transport dispatch per call; a
thrown error anywhere aborts the remainder of the pipeline. -/
def execute (isServer : Bool) (cfg : FetchClientConfig) (path : String)
    (opts : RequestOptions) (safe : Bool)
    (transport : FetchArgs → Response) : ExecOutcome :=
  match buildUrl cfg.baseUrl path opts.params with
  | .error msg => { result := .error (.err msg), events := [] }
  | .ok url =>
    let reqContext := mkRequestContext isServer url opts cfg
    let args := fetchArgsFor isServer cfg url opts
    let res := transport args
    match handleRedirect res reqContext cfg.redirects opts.onRedirect with
    | (.error e, revs) =>
      { result := .error e, events := Event.fetchCall args :: revs }
    | (.ok _, revs) =>
      let parsed := parseResponse res
      if !resOk res then
        let he := handleError res parsed safe reqContext
          (createFetchClientShaper cfg) cfg.errors opts.onError
        { result := he.1, events := Event.fetchCall args :: (revs ++ he.2) }
      else
        match (match opts.schema with
               | some f => f parsed
               | none => .ok parsed) with
        | .error e =>
          { result := .error e, events := Event.fetchCall args :: revs }
        | .ok data =>
          if safe then
            { result := .ok (.shapedSuccess
                ((createFetchClientShaper cfg).success data res))
              events := Event.fetchCall args :: revs }
          else
            { result := .ok (.raw data)
              events := Event.fetchCall args :: revs }

/-- The first transport dispatch recorded in a trace, if any. -/
def firstFetch : List Event → Option FetchArgs
  | [] => none
  | .fetchCall a :: _ => some a
  | _ :: rest => firstFetch rest

/-- The transport dispatch of a call's outcome, if one occurred. -/
def dispatched (o : ExecOutcome) : Option FetchArgs :=
  firstFetch o.events

/-- Is this event an invocation of the server-authoritative redirect
handler? -/
def Event.isServerRedirectCall : Event → Bool
  | .serverRedirectCall _ => true
  | _ => false

/-- Did the call invoke the server-authoritative redirect handler? -/
def serverHandlerCalled (o : ExecOutcome) : Bool :=
  o.events.any Event.isServerRedirectCall

/-- Did the call resolve (rather than raise)? -/
def resolvedOk (o : ExecOutcome) : Bool :=
  match o.result with
  | .ok _ => true
  | .error _ => false

/-- The shaped error that `handleError` computes for a given response on a
given call, with the client's effective shaper — the object returned in
safe mode and attached to the raised error in throwing mode. -/
def shapedErrorFor (isServer : Bool) (cfg : FetchClientConfig)
    (url : String) (opts : RequestOptions) (res : Response) : StandardError :=
  (createFetchClientShaper cfg).error
    (mkErrorContext res (parseResponse res)
      (mkRequestContext isServer url opts cfg))

/-- Does this response trigger the server-authoritative redirect
termination path (3xx with a non-empty `location`, server-side, handler
configured)? -/
def redirectTerminationTriggered (isServer : Bool) (cfg : FetchClientConfig)
    (res : Response) : Bool :=
  (300 ≤ res.status && res.status < 400) &&
  (match headersGet res.headers "location" with
   | none => false
   | some l => l != "") &&
  isServer && cfgHasServerRedirectHandler cfg

/-- The per-call error override yields no defined value (it is absent, or
returns `undefined` on the shaped error it would receive). -/
def overrideYieldsNone (opts : RequestOptions) (e : StandardError) : Prop :=
  match opts.onError with
  | none => True
  | some f => f e = none

/-! ### Concrete instances used to exercise the pipeline -/

/-- A minimal client configuration: base URL only, everything else
defaulted. -/
def exampleConfig : FetchClientConfig where
  baseUrl := some "https://example.com"
  headers := none
  redirects := none
  auth := none
  errors := none
  responseFormat := none

/-- The same configuration without a base URL. -/
def noBaseConfig : FetchClientConfig :=
  { exampleConfig with baseUrl := none }

/-- A configuration with a server-authoritative redirect handler. -/
def redirectConfigOn : FetchClientConfig :=
  { exampleConfig with
      redirects := some
        { onRedirectSideEffect := false, serverRedirectHandler := true } }

/-- A configuration with client credentials mode `include`. -/
def authedConfig : FetchClientConfig :=
  { exampleConfig with
      auth := some
        { client := some { enabled := some true, credentials := some .includeMode }
          server := none } }

/-- A bare GET request with no per-call options. -/
def exampleOpts : RequestOptions where
  method := "GET"
  body := none
  params := none
  headers := none
  onError := none
  onRedirect := false
  schema := none
  disableAuth := false

/-- A request carrying a per-call error override that recovers with a
defined value. -/
def overrideOpts : RequestOptions :=
  { exampleOpts with onError := some (fun _ => some (.str "recovered")) }

/-- A POST request whose body is the falsy value `0`. -/
def zeroBodyOpts : RequestOptions :=
  { exampleOpts with method := "POST", body := some (.num 0) }

/-- A 500 response with a JSON body. -/
def internalErrorRes : Response where
  status := 500
  statusText := "Internal Server Error"
  headers := [("content-type", "application/json")]
  body := { asJson := some (.obj []), asText := some "" }

/-- A 404 response with a JSON body. -/
def notFoundRes : Response where
  status := 404
  statusText := "Not Found"
  headers := [("content-type", "application/json")]
  body := { asJson := some (.obj []), asText := some "" }

/-- A 302 response redirecting to `/login`. -/
def loginRedirectRes : Response where
  status := 302
  statusText := "Found"
  headers := [("location", "/login")]
  body := { asJson := none, asText := some "" }

/-- A 302 response carrying a `location` header whose value is the empty
string. -/
def emptyLocationRes : Response where
  status := 302
  statusText := "Found"
  headers := [("location", "")]
  body := { asJson := none, asText := some "" }

/-! ### General lemmas about the pipeline -/

theorem find_map_set (k v : String) (hs : List (String × String))
    (h : hs.any (fun p => p.1 == k) = true) :
    (hs.map (fun p => if p.1 == k then (k, v) else p)).find?
      (fun p => p.1 == k) = some (k, v) := by
  induction hs with
  | nil => simp at h
  | cons p t ih =>
    by_cases hp : (p.1 == k) = true
    · simp only [List.map_cons, hp, if_true]
      rw [List.find?_cons_of_pos _ (by simp)]
    · rw [Bool.not_eq_true] at hp
      simp only [List.any_cons, hp, Bool.false_or] at h
      simp only [List.map_cons, hp, Bool.false_eq_true, if_false]
      rw [List.find?_cons_of_neg _ (by simp [hp])]
      exact ih h

theorem headersGet_set_self (hs : List (String × String)) (name v : String) :
    headersGet (headersSet hs name v) name = some v := by
  unfold headersGet headersSet
  by_cases h : hs.any (fun p => p.1 == strLower name) = true
  · rw [if_pos h, find_map_set (strLower name) v hs h]
    rfl
  · rw [if_neg h, List.find?_append]
    have hnone : (hs.find? (fun p => p.1 == strLower name)) = none := by
      rw [List.find?_eq_none]
      intro x hx hbeq
      exact h (List.any_eq_true.mpr ⟨x, hx, hbeq⟩)
    rw [hnone]
    simp [List.find?]

theorem handleRedirect_skip (res : Response) (ctx : RequestContext)
    (r : Option RedirectConfig) (o : Bool)
    (h : res.status < 300 ∨ 400 ≤ res.status) :
    handleRedirect res ctx r o = (.ok (), []) := by
  have hc : (res.status < 300 || 400 ≤ res.status) = true := by
    simp only [Bool.or_eq_true, decide_eq_true_eq]
    exact h
  unfold handleRedirect
  rw [hc]
  rfl

/-- Unfolding characterization of `redirectTerminationTriggered`. -/
theorem redirectTerminationTriggered_iff (isServer : Bool)
    (cfg : FetchClientConfig) (res : Response) :
    redirectTerminationTriggered isServer cfg res = true ↔
      300 ≤ res.status ∧ res.status < 400 ∧
      (∃ l, headersGet res.headers "location" = some l ∧ l ≠ "") ∧
      isServer = true ∧ cfgHasServerRedirectHandler cfg = true := by
  unfold redirectTerminationTriggered
  cases hloc : headersGet res.headers "location" with
  | none => simp [hloc]
  | some l => simp [hloc, and_assoc]

theorem handleRedirect_ok_of_not_triggered (res : Response) (isServer : Bool)
    (cfg : FetchClientConfig) (url : String) (opts : RequestOptions)
    (hterm : redirectTerminationTriggered isServer cfg res = false) :
    ∃ revs, handleRedirect res (mkRequestContext isServer url opts cfg)
      cfg.redirects opts.onRedirect = (.ok (), revs) := by
  have hneg : ¬ (300 ≤ res.status ∧ res.status < 400 ∧
      (∃ l, headersGet res.headers "location" = some l ∧ l ≠ "") ∧
      isServer = true ∧ cfgHasServerRedirectHandler cfg = true) := by
    rw [← redirectTerminationTriggered_iff, hterm]
    simp
  unfold handleRedirect
  split
  · exact ⟨[], rfl⟩
  next h1 =>
    split
    · exact ⟨[], rfl⟩
    next l hloc =>
      split
      · exact ⟨[], rfl⟩
      next he =>
        simp only [Bool.or_eq_true, decide_eq_true_eq, not_or, Nat.not_lt] at h1
        have hsf : ((mkRequestContext isServer url opts cfg).isServer &&
            (match cfg.redirects with
             | none => false
             | some r => r.serverRedirectHandler)) = false := by
          have hns : ¬ (isServer = true ∧
              cfgHasServerRedirectHandler cfg = true) := by
            intro hc2
            exact hneg ⟨by omega, by omega, ⟨l, hloc, by simpa using he⟩,
              hc2.1, hc2.2⟩
          cases hsv : isServer
          · simp [mkRequestContext]
          · cases hh : cfgHasServerRedirectHandler cfg
            · have hmm : (match cfg.redirects with
                  | none => false
                  | some r => r.serverRedirectHandler) = false := hh
              simp [mkRequestContext, hmm]
            · exact absurd ⟨hsv, hh⟩ hns
        simp only [hsf, Bool.false_eq_true, if_false]
        exact ⟨_, rfl⟩

/-- If the URL resolves, the call makes exactly one transport dispatch and
its arguments are `fetchArgsFor`. -/
theorem execute_dispatched (isServer safe : Bool) (cfg : FetchClientConfig)
    (path url : String) (opts : RequestOptions)
    (transport : FetchArgs → Response)
    (hurl : buildUrl cfg.baseUrl path opts.params = .ok url) :
    dispatched (execute isServer cfg path opts safe transport) =
      some (fetchArgsFor isServer cfg url opts) := by
  unfold execute
  rw [hurl]
  simp only [dispatched]
  rcases hr : handleRedirect (transport (fetchArgsFor isServer cfg url opts))
      (mkRequestContext isServer url opts cfg) cfg.redirects opts.onRedirect
    with ⟨e, revs⟩
  cases e with
  | error err => simp [hr, firstFetch]
  | ok u =>
    simp only [hr]
    split
    · simp [firstFetch]
    · split
      · simp [firstFetch]
      · split <;> simp [firstFetch]

/-- If the URL fails to resolve, the call raises before any transport
dispatch, in both dispatch modes. -/
theorem execute_buildUrl_error (isServer safe : Bool)
    (cfg : FetchClientConfig) (path msg : String) (opts : RequestOptions)
    (transport : FetchArgs → Response)
    (hurl : buildUrl cfg.baseUrl path opts.params = .error msg) :
    execute isServer cfg path opts safe transport =
      { result := .error (.err msg), events := [] } := by
  unfold execute
  rw [hurl]

/-- On a non-2xx response that does not trigger the redirect-termination
path, the call's result is exactly `handleError`'s result. -/
theorem execute_error_path (isServer safe : Bool) (cfg : FetchClientConfig)
    (path url : String) (opts : RequestOptions) (res : Response)
    (hurl : buildUrl cfg.baseUrl path opts.params = .ok url)
    (hterm : redirectTerminationTriggered isServer cfg res = false)
    (hok : resOk res = false) :
    (execute isServer cfg path opts safe (fun _ => res)).result =
      (handleError res (parseResponse res) safe
        (mkRequestContext isServer url opts cfg)
        (createFetchClientShaper cfg) cfg.errors opts.onError).1 := by
  obtain ⟨revs, hr⟩ :=
    handleRedirect_ok_of_not_triggered res isServer cfg url opts hterm
  unfold execute
  rw [hurl]
  simp only [hr, hok, Bool.not_false, if_true]

theorem handleError_no_override (res : Response) (parsed : Value)
    (safe : Bool) (ctx : RequestContext) (shaper : ResponseShaper)
    (handlers : Option ErrorConfig) :
    (handleError res parsed safe ctx shaper handlers none).1 =
      if safe then
        .ok (.shapedError (shaper.error (mkErrorContext res parsed ctx)))
      else
        .error (.httpErr (shaper.error (mkErrorContext res parsed ctx))) := by
  unfold handleError
  cases safe <;> rfl

theorem handleError_override_some (res : Response) (parsed : Value)
    (safe : Bool) (ctx : RequestContext) (shaper : ResponseShaper)
    (handlers : Option ErrorConfig) (f : StandardError → Option Value)
    (v : Value)
    (hv : f (shaper.error (mkErrorContext res parsed ctx)) = some v) :
    (handleError res parsed safe ctx shaper handlers (some f)).1 =
      .ok (.raw v) := by
  unfold handleError
  simp [hv]

theorem handleError_override_none (res : Response) (parsed : Value)
    (safe : Bool) (ctx : RequestContext) (shaper : ResponseShaper)
    (handlers : Option ErrorConfig) (f : StandardError → Option Value)
    (hv : f (shaper.error (mkErrorContext res parsed ctx)) = none) :
    (handleError res parsed safe ctx shaper handlers (some f)).1 =
      if safe then
        .ok (.shapedError (shaper.error (mkErrorContext res parsed ctx)))
      else
        .error (.httpErr (shaper.error (mkErrorContext res parsed ctx))) := by
  unfold handleError
  simp only [hv]
  cases safe <;> rfl

theorem redirectTermination_false_of_4xx (isServer : Bool)
    (cfg : FetchClientConfig) (res : Response) (h : 400 ≤ res.status) :
    redirectTerminationTriggered isServer cfg res = false := by
  rw [Bool.eq_false_iff]
  intro hT
  obtain ⟨-, h2, -, -, -⟩ := (redirectTerminationTriggered_iff _ _ _).mp hT
  omega

theorem resOk_false_of_ge400 (res : Response) (h : 400 ≤ res.status) :
    resOk res = false := by
  unfold resOk
  have h3 : ¬ res.status < 300 := by omega
  simp [h3]

/-! ### Claim theorems -/

/-- C1: For every HTTP response with status in 400–599, a safe-mode
(non-throwing) call — provided no per-call error-override callback returns
a defined value — does not raise for the HTTP error and returns the
Shaper's shaped error object, whose `ok` field is `false` and whose
`status` field equals the response's status code (client configured with
the built-in default Shaper). -/
theorem safe_mode_returns_shaped_error (isServer : Bool)
    (cfg : FetchClientConfig) (path url : String) (opts : RequestOptions)
    (res : Response)
    (hurl : buildUrl cfg.baseUrl path opts.params = .ok url)
    (hfmt : cfg.responseFormat = none)
    (h400 : 400 ≤ res.status) (h599 : res.status ≤ 599)
    (hov : overrideYieldsNone opts (shapedErrorFor isServer cfg url opts res)) :
    (execute isServer cfg path opts true (fun _ => res)).result =
      .ok (.shapedError (shapedErrorFor isServer cfg url opts res)) ∧
    (shapedErrorFor isServer cfg url opts res).ok = false ∧
    (shapedErrorFor isServer cfg url opts res).status = res.status := by
  have hterm := redirectTermination_false_of_4xx isServer cfg res h400
  have hok := resOk_false_of_ge400 res h400
  refine ⟨?_, ?_, ?_⟩
  · rw [execute_error_path isServer true cfg path url opts res hurl hterm hok]
    cases hoe : opts.onError with
    | none =>
      exact
        handleError_no_override res (parseResponse res) true
          (mkRequestContext isServer url opts cfg)
          (createFetchClientShaper cfg) cfg.errors
    | some f =>
      unfold overrideYieldsNone at hov
      rw [hoe] at hov
      exact
        handleError_override_none res (parseResponse res) true
          (mkRequestContext isServer url opts cfg)
          (createFetchClientShaper cfg) cfg.errors f hov
  · simp [shapedErrorFor, createFetchClientShaper, hfmt, createStandardShaper,
      Option.getD, mkErrorContext]
  · simp [shapedErrorFor, createFetchClientShaper, hfmt, createStandardShaper,
      Option.getD, mkErrorContext]

/-- C1 witness: a concrete 500 response under a safe-mode call. -/
theorem safe_mode_returns_shaped_error_witness :
    (execute true exampleConfig "/fail" exampleOpts true
        (fun _ => internalErrorRes)).result =
      .ok (.shapedError (shapedErrorFor true exampleConfig
        "https://example.com/fail" exampleOpts internalErrorRes)) ∧
    (shapedErrorFor true exampleConfig "https://example.com/fail"
      exampleOpts internalErrorRes).ok = false ∧
    (shapedErrorFor true exampleConfig "https://example.com/fail"
      exampleOpts internalErrorRes).status = internalErrorRes.status :=
  safe_mode_returns_shaped_error true exampleConfig "/fail"
    "https://example.com/fail" exampleOpts internalErrorRes rfl rfl
    (by decide) (by decide) trivial

/-- C2: For every HTTP response with status in 400–599, a throwing-mode
call — provided no per-call error-override callback returns a defined
value — raises an error object carrying the shaped error's `status` and
`message`, where the generated message is `"HTTP <status>: <statusText>"`
(client configured with the built-in default Shaper). -/
theorem throwing_mode_raises_shaped_error (isServer : Bool)
    (cfg : FetchClientConfig) (path url : String) (opts : RequestOptions)
    (res : Response)
    (hurl : buildUrl cfg.baseUrl path opts.params = .ok url)
    (hfmt : cfg.responseFormat = none)
    (h400 : 400 ≤ res.status) (h599 : res.status ≤ 599)
    (hov : overrideYieldsNone opts (shapedErrorFor isServer cfg url opts res)) :
    (execute isServer cfg path opts false (fun _ => res)).result =
      .error (.httpErr (shapedErrorFor isServer cfg url opts res)) ∧
    (shapedErrorFor isServer cfg url opts res).status = res.status ∧
    (shapedErrorFor isServer cfg url opts res).message =
      "HTTP " ++ toString res.status ++ ": " ++ res.statusText := by
  have hterm := redirectTermination_false_of_4xx isServer cfg res h400
  have hok := resOk_false_of_ge400 res h400
  refine ⟨?_, ?_, ?_⟩
  · rw [execute_error_path isServer false cfg path url opts res hurl hterm hok]
    cases hoe : opts.onError with
    | none =>
      exact
        handleError_no_override res (parseResponse res) false
          (mkRequestContext isServer url opts cfg)
          (createFetchClientShaper cfg) cfg.errors
    | some f =>
      unfold overrideYieldsNone at hov
      rw [hoe] at hov
      exact
        handleError_override_none res (parseResponse res) false
          (mkRequestContext isServer url opts cfg)
          (createFetchClientShaper cfg) cfg.errors f hov
  · simp [shapedErrorFor, createFetchClientShaper, hfmt, createStandardShaper,
      Option.getD, mkErrorContext]
  · simp [shapedErrorFor, createFetchClientShaper, hfmt, createStandardShaper,
      Option.getD, mkErrorContext]

/-- C2 witness: a concrete 500 response under a throwing-mode call. -/
theorem throwing_mode_raises_shaped_error_witness :
    (execute true exampleConfig "/fail" exampleOpts false
        (fun _ => internalErrorRes)).result =
      .error (.httpErr (shapedErrorFor true exampleConfig
        "https://example.com/fail" exampleOpts internalErrorRes)) ∧
    (shapedErrorFor true exampleConfig "https://example.com/fail"
      exampleOpts internalErrorRes).status = internalErrorRes.status ∧
    (shapedErrorFor true exampleConfig "https://example.com/fail"
      exampleOpts internalErrorRes).message = "HTTP 500: Internal Server Error" :=
  throwing_mode_raises_shaped_error true exampleConfig "/fail"
    "https://example.com/fail" exampleOpts internalErrorRes rfl rfl
    (by decide) (by decide) trivial

/-- C3 counterexample: a 302 response that carries a `location` header
whose value is the empty string, server-side with an authoritative
redirect handler configured.  The handler is not invoked and no
termination-contract error is raised: the safe-mode call resolves
normally, refuting the claim for this response. -/
theorem redirect_empty_location_counterexample :
    300 ≤ emptyLocationRes.status ∧ emptyLocationRes.status < 400 ∧
    headersGet emptyLocationRes.headers "location" = some "" ∧
    cfgHasServerRedirectHandler redirectConfigOn = true ∧
    serverHandlerCalled (execute true redirectConfigOn "/protected"
      exampleOpts true (fun _ => emptyLocationRes)) = false ∧
    resolvedOk (execute true redirectConfigOn "/protected" exampleOpts true
      (fun _ => emptyLocationRes)) = true ∧
    serverHandlerCalled (execute true redirectConfigOn "/protected"
      exampleOpts false (fun _ => emptyLocationRes)) = false :=
  ⟨by decide, by decide, rfl, rfl, rfl, rfl, rfl⟩

/-- C3 amended: for every response with status in [300,400) carrying a
`location` header with a non-empty value, when the call runs server-side
and a server-authoritative redirect handler is configured, the redirect
handler invokes that handler and then unconditionally raises the
termination-contract-violation error, in both dispatch modes. -/
theorem server_redirect_termination_raises (safe : Bool)
    (cfg : FetchClientConfig) (path url : String) (opts : RequestOptions)
    (res : Response) (loc : String)
    (hurl : buildUrl cfg.baseUrl path opts.params = .ok url)
    (h3 : 300 ≤ res.status) (h4 : res.status < 400)
    (hloc : headersGet res.headers "location" = some loc) (hne : loc ≠ "")
    (hsrv : cfgHasServerRedirectHandler cfg = true) :
    (execute true cfg path opts safe (fun _ => res)).result =
      .error (.err ("serverRedirectHandler did not terminate for redirect to "
        ++ loc)) ∧
    serverHandlerCalled (execute true cfg path opts safe (fun _ => res))
      = true := by
  have hmatch : ∃ revs,
      handleRedirect res (mkRequestContext true url opts cfg) cfg.redirects
        opts.onRedirect =
        (.error (.err ("serverRedirectHandler did not terminate for redirect to "
          ++ loc)), revs) ∧
      revs.any Event.isServerRedirectCall = true := by
    have hcond : (res.status < 300 || 400 ≤ res.status) = false := by
      simp only [Bool.or_eq_false_iff, decide_eq_false_iff_not, Nat.not_lt,
        Nat.not_le]
      omega
    have hne2 : (loc == "") = false := beq_eq_false_iff_ne.mpr hne
    have hsv : ((mkRequestContext true url opts cfg).isServer &&
        (match cfg.redirects with
         | none => false
         | some r => r.serverRedirectHandler)) = true := by
      have hmm : (match cfg.redirects with
          | none => false
          | some r => r.serverRedirectHandler) = true := hsrv
      simp [mkRequestContext, hmm]
    unfold handleRedirect
    rw [hcond]
    simp only [Bool.false_eq_true, if_false, hloc]
    simp only [hne2, Bool.false_eq_true, if_false, hsv, if_true]
    refine ⟨_, rfl, ?_⟩
    simp [Event.isServerRedirectCall]
  obtain ⟨revs, hr, hany⟩ := hmatch
  unfold execute
  rw [hurl]
  simp only [hr]
  exact ⟨trivial, by simp [serverHandlerCalled, Event.isServerRedirectCall, hany]⟩

/-- C3 witness: a concrete 302 with `location: /login`, server-side with
an authoritative handler configured, raises in safe mode. -/
theorem server_redirect_termination_raises_witness :
    (execute true redirectConfigOn "/protected" exampleOpts true
        (fun _ => loginRedirectRes)).result =
      .error (.err "serverRedirectHandler did not terminate for redirect to /login") ∧
    serverHandlerCalled (execute true redirectConfigOn "/protected"
      exampleOpts true (fun _ => loginRedirectRes)) = true :=
  server_redirect_termination_raises true redirectConfigOn "/protected"
    "https://example.com/protected" exampleOpts loginRedirectRes "/login"
    rfl (by decide) (by decide) rfl (by decide) rfl

/-- C4: For every call whose URL resolves, the redirect mode passed to the
transport dispatch is `"manual"` if and only if the call runs server-side
and a server-authoritative redirect handler is configured; in every other
case it is `"follow"`. -/
theorem redirect_mode_manual_iff (isServer safe : Bool)
    (cfg : FetchClientConfig) (path url : String) (opts : RequestOptions)
    (transport : FetchArgs → Response)
    (hurl : buildUrl cfg.baseUrl path opts.params = .ok url) :
    dispatched (execute isServer cfg path opts safe transport) =
      some (fetchArgsFor isServer cfg url opts) ∧
    ((fetchArgsFor isServer cfg url opts).redirect = .manual ↔
      (isServer = true ∧ cfgHasServerRedirectHandler cfg = true)) ∧
    (¬ (isServer = true ∧ cfgHasServerRedirectHandler cfg = true) →
      (fetchArgsFor isServer cfg url opts).redirect = .follow) := by
  refine ⟨execute_dispatched isServer safe cfg path url opts transport hurl,
    ?_, ?_⟩
  · simp only [fetchArgsFor, redirectModeFor]
    rcases Bool.eq_false_or_eq_true isServer with hs | hs <;>
      rcases Bool.eq_false_or_eq_true (cfgHasServerRedirectHandler cfg)
        with hh | hh <;>
      simp [hs, hh]
  · intro h
    simp only [fetchArgsFor, redirectModeFor]
    rcases Bool.eq_false_or_eq_true isServer with hs | hs <;>
      rcases Bool.eq_false_or_eq_true (cfgHasServerRedirectHandler cfg)
        with hh | hh <;>
      simp_all

/-- C4 witness: server-side with an authoritative handler configured, the
dispatch uses manual mode; the iff holds at this instance. -/
theorem redirect_mode_manual_iff_witness :
    dispatched (execute true redirectConfigOn "/protected" exampleOpts true
        (fun _ => loginRedirectRes)) =
      some (fetchArgsFor true redirectConfigOn
        "https://example.com/protected" exampleOpts) ∧
    (fetchArgsFor true redirectConfigOn "https://example.com/protected"
      exampleOpts).redirect = .manual :=
  ⟨(redirect_mode_manual_iff true true redirectConfigOn "/protected"
      "https://example.com/protected" exampleOpts
      (fun _ => loginRedirectRes) rfl).1,
   (redirect_mode_manual_iff true true redirectConfigOn "/protected"
      "https://example.com/protected" exampleOpts
      (fun _ => loginRedirectRes) rfl).2.1.mpr ⟨rfl, rfl⟩⟩

/-- C5 counterexample: a non-2xx (302 redirect) response, server-side with
an authoritative redirect handler configured: the supplied per-call
override returns a defined value, yet the call raises the
termination-contract error instead of returning that value, in both
dispatch modes — refuting the claim for this non-2xx response. -/
theorem override_preempted_counterexample :
    resOk loginRedirectRes = false ∧
    (overrideOpts.onError.map (fun f => f (shapedErrorFor true
      redirectConfigOn "https://example.com/protected" overrideOpts
      loginRedirectRes))) = some (some (.str "recovered")) ∧
    (execute true redirectConfigOn "/protected" overrideOpts false
        (fun _ => loginRedirectRes)).result =
      .error (.err "serverRedirectHandler did not terminate for redirect to /login") ∧
    (execute true redirectConfigOn "/protected" overrideOpts true
        (fun _ => loginRedirectRes)).result =
      .error (.err "serverRedirectHandler did not terminate for redirect to /login") :=
  ⟨rfl, rfl, rfl, rfl⟩

/-- C5 amended: for every non-2xx response that does not trigger the
server-authoritative redirect termination, when a per-call error-override
callback is supplied and returns a defined value, that value is the call's
result in both dispatch modes (no error raised, no shaped error returned);
and when the override returns `undefined`, the normal error path applies
(shaped error returned in safe mode, raised in throwing mode). -/
theorem override_result_on_error (isServer safe : Bool)
    (cfg : FetchClientConfig) (path url : String) (opts : RequestOptions)
    (res : Response) (f : StandardError → Option Value)
    (hurl : buildUrl cfg.baseUrl path opts.params = .ok url)
    (hok : resOk res = false)
    (hterm : redirectTerminationTriggered isServer cfg res = false)
    (hf : opts.onError = some f) :
    (∀ v, f (shapedErrorFor isServer cfg url opts res) = some v →
      (execute isServer cfg path opts safe (fun _ => res)).result =
        .ok (.raw v)) ∧
    (f (shapedErrorFor isServer cfg url opts res) = none →
      (execute isServer cfg path opts safe (fun _ => res)).result =
        if safe then
          .ok (.shapedError (shapedErrorFor isServer cfg url opts res))
        else
          .error (.httpErr (shapedErrorFor isServer cfg url opts res))) := by
  constructor
  · intro v hv
    rw [execute_error_path isServer safe cfg path url opts res hurl hterm hok,
      hf]
    exact
      handleError_override_some res (parseResponse res) safe
        (mkRequestContext isServer url opts cfg)
        (createFetchClientShaper cfg) cfg.errors f v hv
  · intro hv
    rw [execute_error_path isServer safe cfg path url opts res hurl hterm hok,
      hf]
    exact
      handleError_override_none res (parseResponse res) safe
        (mkRequestContext isServer url opts cfg)
        (createFetchClientShaper cfg) cfg.errors f hv

/-- C5 witness: a 404 with an override that recovers, in throwing mode,
returns the override's value. -/
theorem override_result_on_error_witness :
    (execute true exampleConfig "/missing" overrideOpts false
        (fun _ => notFoundRes)).result = .ok (.raw (.str "recovered")) :=
  (override_result_on_error true false exampleConfig "/missing"
    "https://example.com/missing" overrideOpts notFoundRes
    (fun _ => some (.str "recovered")) rfl rfl rfl rfl).1
    (.str "recovered") rfl

/-- C6: For every call whose URL resolves, transport-level credentials are
attached to the dispatch iff the call runs client-side, auth is not
disabled for the call, and a client credentials mode is configured; every
server-side call and every call with `disableAuth` set dispatches with
credentials `undefined`. -/
theorem credentials_attached_iff (isServer safe : Bool)
    (cfg : FetchClientConfig) (path url : String) (opts : RequestOptions)
    (transport : FetchArgs → Response)
    (hurl : buildUrl cfg.baseUrl path opts.params = .ok url) :
    dispatched (execute isServer cfg path opts safe transport) =
      some (fetchArgsFor isServer cfg url opts) ∧
    (fetchArgsFor isServer cfg url opts).credentials.isSome =
      (!isServer && !opts.disableAuth &&
        (authClientCredentials cfg.auth).isSome) ∧
    ((isServer = true ∨ opts.disableAuth = true) →
      (fetchArgsFor isServer cfg url opts).credentials = none) := by
  refine ⟨execute_dispatched isServer safe cfg path url opts transport hurl,
    ?_, ?_⟩
  · simp only [fetchArgsFor, credentialsFor]
    by_cases h : (!isServer && !opts.disableAuth) = true
    · simp [h]
    · rw [Bool.not_eq_true] at h
      simp [h]
  · intro h
    simp only [fetchArgsFor, credentialsFor]
    rcases h with h | h <;> simp [h]

/-- C6 witness: client-side with credentials configured, the dispatch
attaches them; the same config server-side attaches none. -/
theorem credentials_attached_iff_witness :
    (fetchArgsFor false authedConfig "https://example.com/me"
      exampleOpts).credentials.isSome =
      (!false && !exampleOpts.disableAuth &&
        (authClientCredentials authedConfig.auth).isSome) ∧
    (fetchArgsFor true authedConfig "https://example.com/me"
      exampleOpts).credentials = none :=
  ⟨(credentials_attached_iff false true authedConfig "/me"
      "https://example.com/me" exampleOpts (fun _ => internalErrorRes)
      rfl).2.1,
   (credentials_attached_iff true true authedConfig "/me"
      "https://example.com/me" exampleOpts (fun _ => internalErrorRes)
      rfl).2.2 (Or.inl rfl)⟩

/-- C8 counterexample: the built-in default Shaper implements only the
`success` and `error` capabilities — its optional `redirect` operation is
absent, refuting the claim that it implements all three. -/
theorem standardShaper_no_redirect :
    createStandardShaper.redirect = none := rfl

/-- C8 amended: the built-in default Shaper (used by the client when no
`responseFormat` is configured) implements the `success` and `error`
capabilities producing shapes matching `StandardResponse` — success with
`ok = true` and the response's status, data, headers and raw response;
error with `ok = false` and the error context's status, message and parsed
body — and supplies no `redirect` operation. -/
theorem standardShaper_shapes :
    (∀ cfg : FetchClientConfig, cfg.responseFormat = none →
      createFetchClientShaper cfg = createStandardShaper) ∧
    (∀ (data : Value) (res : Response),
      createStandardShaper.success data res =
        { ok := true, status := res.status, data := data,
          headers := res.headers, raw := res }) ∧
    (∀ ctx : ErrorContext,
      createStandardShaper.error ctx =
        { ok := false, status := ctx.status, message := ctx.message,
          data := some ctx.parsedBody, raw := ctx.raw }) ∧
    createStandardShaper.redirect = none := by
  refine ⟨?_, fun data res => rfl, fun ctx => rfl, rfl⟩
  intro cfg h
  simp [createFetchClientShaper, h]

/-- C8 witness: the client's effective shaper for a configuration with no
`responseFormat` is the built-in standard shaper. -/
theorem standardShaper_shapes_witness :
    createFetchClientShaper exampleConfig = createStandardShaper :=
  standardShaper_shapes.1 exampleConfig rfl

theorem setQueryParam_append (q : List (String × String)) (k s : String)
    (h : ∀ kv ∈ q, kv.1 ≠ k) :
    setQueryParam q k s = q ++ [(k, s)] := by
  unfold setQueryParam
  have hany : (q.any fun p => p.1 == k) = false := by
    rw [Bool.eq_false_iff]
    intro ha
    obtain ⟨x, hx, hbeq⟩ := List.any_eq_true.mp ha
    exact h x hx (by simpa using hbeq)
  rw [hany]
  simp

theorem applyParams_eq_filter (ps : List (String × ParamValue))
    (q : List (String × String))
    (hdisj : ∀ kv ∈ q, kv.1 ∉ ps.map Prod.fst)
    (hnd : (ps.map Prod.fst).Nodup) :
    applyParams q ps =
      q ++ (ps.filter (fun p => !p.2.isNullish)).map
        (fun p => (p.1, p.2.render)) := by
  induction ps generalizing q with
  | nil => simp [applyParams]
  | cons p rest ih =>
    rcases p with ⟨k, v⟩
    simp only [List.map_cons, List.nodup_cons] at hnd
    by_cases hv : v.isNullish = true
    · simp only [applyParams, hv, if_true]
      rw [ih q ?_ hnd.2]
      · simp [List.filter_cons, hv]
      · intro kv hkv
        have := hdisj kv hkv
        simp only [List.map_cons, List.mem_cons, not_or] at this
        exact this.2
    · rw [Bool.not_eq_true] at hv
      simp only [applyParams, hv, Bool.false_eq_true, if_false]
      rw [setQueryParam_append q k v.render ?_]
      · rw [ih (q ++ [(k, v.render)]) ?_ hnd.2]
        · simp [List.filter_cons, hv]
        · intro kv hkv
          rcases List.mem_append.mp hkv with hin | hin
          · have := hdisj kv hin
            simp only [List.map_cons, List.mem_cons, not_or] at this
            exact this.2
          · have : kv = (k, v.render) := by simpa using hin
            rw [this]
            exact hnd.1
      · intro kv hkv
        have := hdisj kv hkv
        simp only [List.map_cons, List.mem_cons, not_or] at this
        exact this.1

/-- C7 counterexample: a relative path with a configured-but-empty base
URL is not resolved against it — the source's guard `!baseUrl` treats the
empty string as missing, so `buildUrl` raises the `requires a baseUrl`
error instead of resolving, refuting the claim's universal resolution of
relative paths against every baseUrl. -/
theorem buildUrl_empty_base_counterexample :
    isHttpAbsolute "/users" = false ∧
    buildUrl (some "") "/users" none =
      .error "Relative path \"/users\" requires a baseUrl" :=
  ⟨rfl, rfl⟩

/-- C7 amended: for all (baseUrl, path, params) with distinct param keys:
when path starts with an http or https scheme prefix the resolved URL is
path used verbatim with baseUrl ignored; otherwise, provided the baseUrl
is present and non-empty, path is resolved against baseUrl — a relative
path with a missing or empty baseUrl raises instead; in both resolved
cases each params entry is appended as `key=value` to the query string,
and entries whose value is null or undefined are omitted. -/
theorem buildUrl_resolution (b : Option String) (path : String)
    (ps : List (String × ParamValue))
    (hnd : (ps.map Prod.fst).Nodup) :
    (isHttpAbsolute path = true →
      buildUrl b path (some ps) = .ok (path ++ renderQuery
        ((ps.filter (fun p => !p.2.isNullish)).map
          (fun p => (p.1, p.2.render))))) ∧
    (isHttpAbsolute path = false → ∀ base, base ≠ "" →
      buildUrl (some base) path (some ps) = .ok
        (ensureTrailingSlash base ++
          (if strStartsWith path "/" then strDrop path 1 else path) ++
          renderQuery ((ps.filter (fun p => !p.2.isNullish)).map
            (fun p => (p.1, p.2.render))))) ∧
    (isHttpAbsolute path = false → ∀ b2 : Option String,
      optStrTruthy b2 = false →
      buildUrl b2 path (some ps) =
        .error ("Relative path \"" ++ path ++ "\" requires a baseUrl")) := by
  have happ : applyParams [] ps =
      (ps.filter (fun p => !p.2.isNullish)).map
        (fun p => (p.1, p.2.render)) :=
    applyParams_eq_filter ps [] (by simp) hnd
  refine ⟨?_, ?_, ?_⟩
  · intro habs
    unfold buildUrl
    simp [habs, happ]
  · intro habs base hbase
    unfold buildUrl
    simp [habs, happ, optStrTruthy, hbase]
  · intro habs b2 hb2
    unfold buildUrl
    simp [habs, hb2]

/-- C7 witness: the spec's `/search` scenario, nullVal omitted. -/
theorem buildUrl_resolution_witness :
    buildUrl (some "https://api.example.com") "/search"
      (some [("q", .str "foo"), ("page", .num 1), ("active", .bool true),
        ("nullVal", .null)]) =
      .ok "https://api.example.com/search?q=foo&page=1&active=true" :=
  (buildUrl_resolution (some "https://api.example.com") "/search"
    [("q", .str "foo"), ("page", .num 1), ("active", .bool true),
      ("nullVal", .null)] (by decide)).2.1 rfl "https://api.example.com"
    (by decide)

/-- C9: For every call whose path lacks an http/https scheme prefix, made
on a client configured without a base URL, URL building raises
`Relative path ... requires a baseUrl`, so the call fails before any
transport dispatch occurs, in both dispatch modes. -/
theorem relative_path_without_base_raises (isServer safe : Bool)
    (cfg : FetchClientConfig) (path : String) (opts : RequestOptions)
    (transport : FetchArgs → Response)
    (hrel : isHttpAbsolute path = false) (hb : cfg.baseUrl = none) :
    execute isServer cfg path opts safe transport =
      { result := .error (.err ("Relative path \"" ++ path ++
          "\" requires a baseUrl")),
        events := [] } := by
  apply execute_buildUrl_error
  unfold buildUrl
  rw [hb]
  simp [hrel, optStrTruthy]

/-- C9 witness: a relative `/users` on a client without a base URL, safe
mode: no dispatch, the URL error is raised. -/
theorem relative_path_without_base_raises_witness :
    execute true noBaseConfig "/users" exampleOpts true
        (fun _ => internalErrorRes) =
      { result := .error (.err "Relative path \"/users\" requires a baseUrl"),
        events := [] } :=
  relative_path_without_base_raises true true noBaseConfig "/users"
    exampleOpts (fun _ => internalErrorRes) rfl rfl

/-- C10: For every call whose URL resolves, a falsy body (0, empty string,
false, null, or absent) is treated as absent: the transport dispatch
receives an `undefined` body and the headers are exactly the merged
headers with no default content type added; the default JSON content type
is added exactly when the body is truthy and neither header source
supplied a content type. -/
theorem falsy_body_dispatch (isServer safe : Bool)
    (cfg : FetchClientConfig) (path url : String) (opts : RequestOptions)
    (transport : FetchArgs → Response)
    (hurl : buildUrl cfg.baseUrl path opts.params = .ok url) :
    dispatched (execute isServer cfg path opts safe transport) =
      some (fetchArgsFor isServer cfg url opts) ∧
    (truthyOpt opts.body = false →
      (fetchArgsFor isServer cfg url opts).body = none ∧
      (fetchArgsFor isServer cfg url opts).headers =
        mergeHeaders [cfg.headers, opts.headers]) ∧
    (truthyOpt opts.body = true →
      (headersGet (mergeHeaders [cfg.headers, opts.headers]) "content-type"
          = none →
        headersGet (fetchArgsFor isServer cfg url opts).headers
          "content-type" = some "application/json") ∧
      ((headersGet (mergeHeaders [cfg.headers, opts.headers])
          "content-type").isSome = true →
        (fetchArgsFor isServer cfg url opts).headers =
          mergeHeaders [cfg.headers, opts.headers])) := by
  refine ⟨execute_dispatched isServer safe cfg path url opts transport hurl,
    ?_, ?_⟩
  · intro hfalsy
    constructor
    · simp only [fetchArgsFor, serializedBody]
      cases hb : opts.body with
      | none => rfl
      | some v =>
        rw [hb] at hfalsy
        simp only [truthyOpt] at hfalsy
        simp [hfalsy]
    · simp only [fetchArgsFor, mergedHeadersFor, hfalsy, Bool.false_and,
        Bool.false_eq_true, if_false]
  · intro htruthy
    constructor
    · intro hct
      simp only [fetchArgsFor, mergedHeadersFor, htruthy, hct, Option.isSome_none,
        Bool.not_false, Bool.true_and, if_true]
      exact headersGet_set_self (mergeHeaders [cfg.headers, opts.headers])
        "content-type" "application/json"
    · intro hct
      simp only [fetchArgsFor, mergedHeadersFor, htruthy, hct, Bool.not_true,
        Bool.true_and, Bool.and_false, Bool.false_eq_true, if_false]

/-- C10 witness: a POST whose body is the falsy value `0` dispatches an
`undefined` body and unmodified merged headers. -/
theorem falsy_body_dispatch_witness :
    (fetchArgsFor true exampleConfig "https://example.com/test"
      zeroBodyOpts).body = none ∧
    (fetchArgsFor true exampleConfig "https://example.com/test"
      zeroBodyOpts).headers =
      mergeHeaders [exampleConfig.headers, zeroBodyOpts.headers] :=
  (falsy_body_dispatch true false exampleConfig "/test"
    "https://example.com/test" zeroBodyOpts (fun _ => internalErrorRes)
    rfl).2.1 rfl

end UnifiedFetch
